import Mathlib

/-!
Verification of the Spotify polling client core
(`src/query/spotify_source.cpp` of obs-tuna).

The C++ source is shallowly embedded below: pure helpers become Lean
functions, the stateful pieces (token state, backoff statics, poller
fields) become explicit state passing, network traffic becomes explicit
response/oracle parameters, and C++ exceptions become `Except` results.
-/

/-- JSON value, modelling Qt's `QJsonValue` / `QJsonObject` /
`QJsonDocument` as used by the source.  JSON numbers are modelled as
integers (every numeric field the source reads is a whole number, and
`QJsonValue::toInt` returns the default `0` on non-integral doubles).
A missing key, or a key lookup on a non-object, yields `null`, which
behaves exactly like Qt's `Undefined` for the accessors used here:
`isString`/`isBool`/`isObject`/`isDouble` are false and the `to*`
accessors return the empty default. -/
inductive JVal where
  | null : JVal
  | bool : Bool → JVal
  | num : Int → JVal
  | str : String → JVal
  | obj : List (String × JVal) → JVal
  | arr : List JVal → JVal

/-- Models `QJsonValue::isObject`. -/
def JVal.isObject : JVal → Bool
  | .obj _ => true
  | _ => false

/-- Models `QJsonValue::isString`. -/
def JVal.isString : JVal → Bool
  | .str _ => true
  | _ => false

/-- Models `QJsonValue::isBool`. -/
def JVal.isBool : JVal → Bool
  | .bool _ => true
  | _ => false

/-- Models `QJsonValue::isDouble` (numbers). -/
def JVal.isDouble : JVal → Bool
  | .num _ => true
  | _ => false

/-- Models `QJsonValue::isArray`. -/
def JVal.isArray : JVal → Bool
  | .arr _ => true
  | _ => false

/-- Models `QJsonValue::toString` (empty string on non-strings). -/
def JVal.asStr : JVal → String
  | .str s => s
  | _ => ""

/-- Models `QJsonValue::toBool` (false on non-booleans). -/
def JVal.asBool : JVal → Bool
  | .bool b => b
  | _ => false

/-- Models `QJsonValue::toInt` (0 on non-numbers). -/
def JVal.asInt : JVal → Int
  | .num n => n
  | _ => 0

/-- Models `QJsonValue::toArray` (empty array on non-arrays). -/
def JVal.asArr : JVal → List JVal
  | .arr l => l
  | _ => []

/-- Field lookup in an object's field list; a missing key yields
`null` (Qt's Undefined). -/
def lookupField : List (String × JVal) → String → JVal
  | [], _ => .null
  | (k, v) :: r, key => if k == key then v else lookupField r key

/-- Models `operator[]` on `QJsonObject` / `QJsonValue` /
`QJsonDocument`: object member access, `null` (Undefined) when the
value is not an object. -/
def JVal.get : JVal → String → JVal
  | .obj fs, k => lookupField fs k
  | _, _ => .null

/-- Models `QJsonObject::contains`. -/
def objContains (v : JVal) (key : String) : Bool :=
  match v with
  | .obj fs => fs.any (fun p => p.1 == key)
  | _ => false

/-- Models `QJsonObject::isEmpty` after a `toObject()` conversion
(a non-object converts to the empty object, which is empty). -/
def objIsEmpty (v : JVal) : Bool :=
  match v with
  | .obj fs => fs.isEmpty
  | _ => true

/-- Playback status values `state_playing` / `state_paused` /
`state_stopped` assigned to `meta::STATUS` by the source. -/
inductive PlayState where
  | playing : PlayState
  | paused : PlayState
  | stopped : PlayState
deriving DecidableEq, Repr

/-- Modelled from the spec: the normalized metadata record (`m_current`,
the `song` class, which is not under `src/`).  Per spec section 3 it is a
plain field container: `set(key, value)` stores a value for a field and
`clear()` resets every field; a field is `none` while unset.  The field
list is the one the source writes. -/
structure PlaybackRecord where
  title : Option String := none
  artists : Option (List String) := none
  album : Option String := none
  cover : Option String := none
  url : Option String := none
  duration : Option Int := none
  progress : Option Int := none
  status : Option PlayState := none
  disc_number : Option Int := none
  track_number : Option Int := none
  explicitFlag : Option Bool := none
  release_year : Option Int := none
  release_month : Option Int := none
  release_day : Option Int := none
  context : Option String := none
  context_url : Option String := none
  context_external_url : Option String := none
  playlist_name : Option String := none
deriving DecidableEq, Repr

/-- Characters accepted by C `isspace` (used by `std::stoi` and by
`QString::toInt` for surrounding whitespace). -/
def cIsSpace (c : Char) : Bool :=
  c = ' ' || c = '\t' || c = '\n' || c = '\x0b' || c = '\x0c' || c = '\r'

/-- Decimal value of a digit run, accumulator style. -/
def digitsVal : List Char → Int → Int
  | [], acc => acc
  | c :: r, acc => digitsVal r (acc * 10 + ((c.toNat : Int) - 48))

/-- Every character is a decimal digit. -/
def allDigits (l : List Char) : Bool :=
  l.all Char.isDigit

/-- Trim C-whitespace from both ends. -/
def trimWs (l : List Char) : List Char :=
  ((l.dropWhile cIsSpace).reverse.dropWhile cIsSpace).reverse

/-- Models `QString::toInt` with the default base 10: leading and
trailing whitespace are allowed around an optional sign and digits; if
the whole trimmed string is not a valid integer the result is `0`.
Overflow is not modelled (no claim involves out-of-range values). -/
def qToInt (l : List Char) : Int :=
  match trimWs l with
  | '-' :: rest => if !rest.isEmpty && allDigits rest then -(digitsVal rest 0) else 0
  | '+' :: rest => if !rest.isEmpty && allDigits rest then digitsVal rest 0 else 0
  | rest => if !rest.isEmpty && allDigits rest then digitsVal rest 0 else 0

/-- Head character is a decimal digit. -/
def headDigit : List Char → Bool
  | [] => false
  | c :: _ => c.isDigit

/-- Models `std::stoi` (base 10): skip leading whitespace, optional
sign, then at least one digit is required (otherwise
`std::invalid_argument`, modelled as `none`); conversion stops at the
first non-digit.  Overflow (`std::out_of_range`) is not modelled (no
claim involves out-of-range values). -/
def stoiModel (l : List Char) : Option Int :=
  match l.dropWhile cIsSpace with
  | '-' :: r => if headDigit r then some (-(digitsVal (r.takeWhile Char.isDigit) 0)) else none
  | '+' :: r => if headDigit r then some (digitsVal (r.takeWhile Char.isDigit) 0) else none
  | r => if headDigit r then some (digitsVal (r.takeWhile Char.isDigit) 0) else none

/-- First list is a prefix of the second (decision procedure written
out so that concrete instances reduce). -/
def leadMatch : List Char → List Char → Bool
  | [], _ => true
  | _ :: _, [] => false
  | a :: as, b :: bs => a = b && leadMatch as bs

/-- Models `std::string::find`: index of the first occurrence of `tok`
in the string, `none` for `npos`. -/
def strFind (tok : List Char) : List Char → Option Nat
  | [] => if tok.isEmpty then some 0 else none
  | c :: rest =>
    if leadMatch tok (c :: rest) then some 0
    else (strFind tok rest).map (· + 1)

/-- Characters before the first `'\n'`; `none` when there is no
newline, which in the source makes `header.at(end)` walk past the end
of the string and throw `std::out_of_range`. -/
def takeUntilNl : List Char → Option (List Char)
  | [] => none
  | c :: r => if c = '\n' then some [] else (takeUntilNl r).map (c :: ·)

/-- The error a C++ exception escaping `extract_timeout` would carry:
`std::out_of_range` from `header.at`, or `std::invalid_argument` from
`std::stoi`. -/
inductive ExtractErr where
  | outOfRange : ExtractErr
  | conversionErr : ExtractErr
deriving DecidableEq, Repr

/-- The search token of `extract_timeout`, `"Retry-After: "`. -/
def retryToken : List Char := "Retry-After: ".toList

/-- Models `extract_timeout` (spotify_source.cpp lines 113-127): the
out-parameter `timeout` starts at 0; if the token is absent the result
stays 0; otherwise the characters after the token up to the next
newline are converted with `std::stoi`.  A missing newline or an
unconvertible run surfaces as an exception (`Except.error`). -/
def extract_timeout (header : List Char) : Except ExtractErr Int :=
  match strFind retryToken header with
  | none => .ok 0
  | some pos =>
    match takeUntilNl (header.drop (pos + retryToken.length)) with
    | none => .error .outOfRange
    | some seg =>
      match stoiModel seg with
      | none => .error .conversionErr
      | some v => .ok v

/-- Models `QString::split("-")` with Qt's default `KeepEmptyParts`. -/
def splitDash : List Char → List (List Char)
  | [] => [[]]
  | c :: r =>
    if c = '-' then [] :: splitDash r
    else
      match splitDash r with
      | h :: t => (c :: h) :: t
      | [] => [[c]]

/-- Models the release-date block of `parse_track_json`
(spotify_source.cpp lines 272-286): for a non-empty date string, split
on `-` and switch on the number of parts with fallthrough (3 parts set
day, month, year; 2 set month, year; 1 sets year; any other count sets
nothing).  The function is total: no input produces an error. -/
def parse_release_date (date : List Char) (r : PlaybackRecord) : PlaybackRecord :=
  if date.length > 0 then
    match splitDash date with
    | [y, m, d] =>
      { r with release_day := some (qToInt d), release_month := some (qToInt m),
               release_year := some (qToInt y) }
    | [y, m] =>
      { r with release_month := some (qToInt m), release_year := some (qToInt y) }
    | [y] => { r with release_year := some (qToInt y) }
    | _ => r
  else r

/-- Models `spotify_source::parse_track_json` (lines 210-287).  The
secondary playlist-name request is represented by the oracle `fetch`,
which maps the requested URL to the HTTP status code and parsed JSON
document `execute_command` would deliver.  The record is cleared first
and then each `m_current.set` call is a field update, in source
order. -/
def parse_track_json (response : JVal) (fetch : String → Int × JVal) : PlaybackRecord :=
  let trackObj := response.get "item"
  let albumObj := trackObj.get "album"
  let artists := (trackObj.get "artists").asArr
  let urls := trackObj.get "external_urls"
  let r0 : PlaybackRecord := {}
  let r1 :=
    if (response.get "context").isObject then
      let ctx := response.get "context"
      let ra := { r0 with context := some (ctx.get "type").asStr,
                          context_url := some (ctx.get "uri").asStr }
      let rb :=
        if (ctx.get "external_urls").isObject then
          { ra with context_external_url := some ((ctx.get "external_urls").get "spotify").asStr }
        else ra
      if (ctx.get "href").isString then
        let res := fetch ((ctx.get "href").asStr)
        if res.1 = 200 then { rb with playlist_name := some (res.2.get "name").asStr }
        else rb
      else rb
    else r0
  let r2 := { r1 with artists := some (artists.map (fun (a : JVal) => (a.get "name").asStr)) }
  let covers := albumObj.get "images"
  let r3 :=
    match covers with
    | JVal.arr (v :: _) =>
      if v.isObject && objContains v "url" then { r2 with cover := some (v.get "url").asStr }
      else r2
    | _ => r2
  let r4 :=
    if !objIsEmpty urls && (urls.get "spotify").isString then
      { r3 with url := some (urls.get "spotify").asStr }
    else r3
  let r5 := { r4 with title := some (trackObj.get "name").asStr,
                      duration := some (trackObj.get "duration_ms").asInt,
                      album := some (albumObj.get "name").asStr,
                      explicitFlag := some (trackObj.get "explicit").asBool,
                      disc_number := some (trackObj.get "disc_number").asInt,
                      track_number := some (trackObj.get "track_number").asInt }
  parse_release_date ((albumObj.get "release_date").asStr).toList r5

/-- Poller state touched by the response-handling part of
`spotify_source::refresh`: the metadata record `m_current`, the cached
`m_last_state`, and the rate-limit cooldown fields `m_timout_start`
(spelled as in the source) and `m_timeout_length`, both `uint64_t`
nanosecond values. -/
structure PollerState where
  current : PlaybackRecord
  last_state : Option PlayState
  timout_start : Nat
  timeout_length : Nat
deriving DecidableEq, Repr

/-- Models `spotify_source::refresh` from the point the playback
response has been received (lines 160-206): `http_code`, the parsed
body `response`, and the raw `header` are the outcome of
`execute_command`; `fetch` is the oracle for the secondary
playlist-name request; `now_ns` is `os_gettime_ns()`.  `HTTP_OK = 200`,
`HTTP_NO_CONTENT = 204` and `STATUS_RETRY_AFTER = 429` (the
too-many-requests status; `constants.hpp` is not under `src/`, the
numbers are the standard HTTP codes the spec names).  `SECOND_TO_NS =
10^9`.  An exception escaping `extract_timeout` is `Except.error`;
`uint64_t` arithmetic is taken modulo `2^64`. -/
def refresh_handle (http_code : Int) (response : JVal) (header : List Char)
    (fetch : String → Int × JVal) (now_ns : Nat) (st : PollerState) :
    Except ExtractErr PollerState :=
  let obj := if response.isObject then response else JVal.obj []
  if http_code = 200 then
    let progress := obj.get "progress_ms"
    let device := obj.get "device"
    let playing := obj.get "is_playing"
    let play_type := obj.get "currently_playing_type"
    if play_type.isString && (play_type.asStr == "ad") then
      .ok { st with current := { st.current with status := some PlayState.paused } }
    else if device.isObject && playing.isBool then
      let cur1 :=
        if (device.get "is_private").asBool then st.current
        else { parse_track_json obj fetch with
                 status := some (if playing.asBool then PlayState.playing else PlayState.stopped) }
      let cur2 := { cur1 with progress := some progress.asInt }
      .ok { st with current := cur2, last_state := cur2.status }
    else
      .ok { st with last_state := st.current.status }
  else if http_code = 204 then
    .ok { st with current := {} }
  else if http_code = 429 && !header.isEmpty then
    match extract_timeout header with
    | .error e => .error e
    | .ok t =>
      let tu : Nat := (t % (2 ^ 64 : Int)).toNat
      if tu ≠ 0 then
        .ok { st with timeout_length := (tu * 1000000000) % 2 ^ 64, timout_start := now_ns }
      else
        .ok { st with timeout_length := 0 }
  else .ok st

/-- Token state owned by the source: `m_token`, `m_refresh_token`,
`m_token_termination` (epoch seconds) and `m_logged_in`. -/
structure TokenState where
  token : String
  refresh_token : String
  token_termination : Int
  logged_in : Bool
deriving DecidableEq, Repr

/-- Outcome of one `do_refresh_token` call: the new token state, the
boolean result, and whether a token-endpoint request was actually
performed by `request_token` (which sends unless the request body or
the credentials are empty). -/
structure RefreshOutcome where
  state : TokenState
  result : Bool
  requestSent : Bool
deriving DecidableEq, Repr

/-- Models `spotify_source::do_refresh_token` (lines 417-468) together
with `request_token` (lines 376-414).  `creds` is `m_creds`, `now` is
`util::epoch()`, and `netResponse` is the JSON document the token
endpoint would deliver (`none` for a cURL failure or an unparsable
body, which leave the response document null).  The request body
`"grant_type=refresh_token&refresh_token=" ++ refresh_token` is never
empty, so `request_token` sends the request exactly when the
credentials are non-empty — including when the stored refresh token is
empty, since the `berr("Refresh token is empty!")` branch does not
return.  The persistence side effect (`save()`) is out of scope. -/
def do_refresh_token (st : TokenState) (creds : String) (now : Int)
    (netResponse : Option JVal) : RefreshOutcome :=
  let sent := !creds.isEmpty
  let response : Option JVal := if creds.isEmpty then none else netResponse
  match response with
  | none => { state := { st with logged_in := false }, result := false, requestSent := sent }
  | some doc =>
    let obj := if doc.isObject then doc else JVal.obj []
    let token := obj.get "access_token"
    let expires := obj.get "expires_in"
    let refreshTok := obj.get "refresh_token"
    let success := token.isString && expires.isDouble
    let st1 :=
      if success then
        { st with token := token.asStr, token_termination := now + expires.asInt }
      else st
    let st2 :=
      if refreshTok.isString && !(refreshTok.asStr == "") then
        { st1 with refresh_token := refreshTok.asStr }
      else st1
    { state := { st2 with logged_in := success }, result := success, requestSent := sent }

/-- The function-local static backoff bookkeeping of `execute_command`
(lines 512-514): `timeout_start`, `timeout` (seconds) and
`timeout_multiplier`; at program start all three are `⟨0, 0, 1⟩`. -/
structure BackoffState where
  timeout_start : Int
  timeout : Int
  multiplier : Int
deriving DecidableEq, Repr

/-- The statics' initial values. -/
def initBackoff : BackoffState := ⟨0, 0, 1⟩

/-- How one `execute_command` call ends, seen from the backoff logic:
a transport-level cURL failure, a response whose body parsed as JSON
(or was empty), or a non-empty body that failed to parse. -/
inductive ExecOutcome where
  | transportFail : ExecOutcome
  | parsedOk : ExecOutcome
  | parseFailNonEmpty : ExecOutcome
deriving DecidableEq, Repr

/-- Models the backoff logic of `execute_command` (lines 509-576):
`now` is `util::epoch()`.  If a cooldown is active and not yet elapsed
the call returns immediately (second component `false`: no request
performed).  Otherwise the request runs with outcome `oc`: a transport
failure schedules `5 * timeout_multiplier` seconds and increments the
multiplier; a successfully parsed (or empty) response resets the
multiplier to 1 and clears the cooldown; a non-empty unparsable body
changes nothing. -/
def exec_step (st : BackoffState) (now : Int) (oc : ExecOutcome) : BackoffState × Bool :=
  if st.timeout > 0 ∧ now - st.timeout_start < st.timeout then (st, false)
  else
    let st1 := { st with timeout := 0 }
    match oc with
    | .transportFail =>
      ({ st1 with timeout_start := now, timeout := 5 * st1.multiplier,
                  multiplier := st1.multiplier + 1 }, true)
    | .parsedOk => ({ st1 with multiplier := 1, timeout_start := 0, timeout := 0 }, true)
    | .parseFailNonEmpty => (st1, true)

/-- State after a sequence of transport-failing `execute_command` calls
at the given times. -/
def failTimes : BackoffState → List Int → BackoffState
  | st, [] => st
  | st, t :: ts => failTimes (exec_step st t .transportFail).1 ts

/-- Every call in the sequence happens after the previous cooldown has
elapsed, so each one really performs (and fails) a request. -/
def elapsedAll : BackoffState → List Int → Prop
  | _, [] => True
  | st, t :: ts =>
    ¬(st.timeout > 0 ∧ t - st.timeout_start < st.timeout) ∧
      elapsedAll (exec_step st t .transportFail).1 ts

/-- Modelled from the spec: the capability enumeration (declared
outside `src/`); the constructors are the cases of the source's
dispatch switch. -/
inductive Capability where
  | play_pause : Capability
  | stop_song : Capability
  | prev_song : Capability
  | next_song : Capability
  | volume_up : Capability
  | volume_down : Capability
deriving DecidableEq, Repr

/-- One HTTP call issued by the command dispatcher: URL, the
`custom_request_type` argument and the `request_data` argument of
`execute_command` (`none` means the defaults, i.e. GET, and an empty
JSON body when a custom request type is set). -/
structure ApiRequest where
  url : String
  custom_request_type : Option String
  request_data : Option String
deriving DecidableEq, Repr

/-- The request sent to the pause endpoint. -/
def pauseRequest : ApiRequest :=
  ⟨"https://api.spotify.com/v1/me/player/pause", some "PUT", none⟩

/-- Models the dispatch switch of `spotify_source::execute_capability`
(lines 301-323): `playing` is the captured
`m_current.get<int>(meta::STATUS)`, tested for C truthiness.  The
`CAP_STOP_SONG` case label sits inside the `if (playing)` branch of
`CAP_PLAY_PAUSE`, so a stop jumps straight to the pause call no matter
what `playing` holds.  `none` means no request is issued.  The detached
thread and response logging are out of scope. -/
def execute_capability_request (c : Capability) (playing : Int) : Option ApiRequest :=
  match c with
  | .play_pause =>
    if playing ≠ 0 then some pauseRequest
    else some ⟨"https://api.spotify.com/v1/me/player/play", some "PUT",
               some "\x7b\"position_ms\": 0\x7d"⟩
  | .stop_song => some pauseRequest
  | .prev_song => some ⟨"https://api.spotify.com/v1/me/player/previous", some "POST", none⟩
  | .next_song => some ⟨"https://api.spotify.com/v1/me/player/next", some "POST", none⟩
  | .volume_up => none
  | .volume_down => none

/-- Claim C7: splitting the album release_date string on `-` yields
day+month+year for a 3-part date (`"2021-05-09"` → year 2021, month 5,
day 9), month+year for a 2-part date, year only for a 1-part date, and
for the empty string sets no release fields; `parse_release_date` is a
total function, so partial dates never produce an error. -/
theorem C7_release_date_split :
    (∀ r : PlaybackRecord, parse_release_date "2021-05-09".toList r =
      { r with release_year := some 2021, release_month := some 5, release_day := some 9 })
    ∧ (∀ (r : PlaybackRecord) (dt y m d : List Char), splitDash dt = [y, m, d] →
        parse_release_date dt r =
          { r with release_year := some (qToInt y), release_month := some (qToInt m),
                   release_day := some (qToInt d) })
    ∧ (∀ (r : PlaybackRecord) (dt y m : List Char), splitDash dt = [y, m] →
        parse_release_date dt r =
          { r with release_year := some (qToInt y), release_month := some (qToInt m) })
    ∧ (∀ (r : PlaybackRecord) (dt y : List Char), dt ≠ [] → splitDash dt = [y] →
        parse_release_date dt r = { r with release_year := some (qToInt y) })
    ∧ (∀ r : PlaybackRecord, parse_release_date "".toList r = r) := by
  refine ⟨fun r => rfl, ?_, ?_, ?_, fun r => rfl⟩
  · intro r dt y m d h
    cases dt with
    | nil => simp [splitDash] at h
    | cons c rest => simp [parse_release_date, h]
  · intro r dt y m h
    cases dt with
    | nil => simp [splitDash] at h
    | cons c rest => simp [parse_release_date, h]
  · intro r dt y hne h
    cases dt with
    | nil => exact absurd rfl hne
    | cons c rest => simp [parse_release_date, h]

/-- Witness for C7: the theorem applied to the spec's own examples
`"2021-05"`, `"2021"` and `""`. -/
theorem C7_release_date_split_witness :
    parse_release_date "2021-05".toList {} =
      { release_year := some 2021, release_month := some 5 }
    ∧ parse_release_date "2021".toList {} = { release_year := some 2021 }
    ∧ parse_release_date "".toList {} = ({} : PlaybackRecord) :=
  ⟨C7_release_date_split.2.2.1 {} "2021-05".toList "2021".toList "05".toList (by decide),
   C7_release_date_split.2.2.2.1 {} "2021".toList "2021".toList (by decide) (by decide),
   C7_release_date_split.2.2.2.2 {}⟩

/-- Claim C5 counterexample: a header string that contains the
substring `"Retry-After: 30\n"` need not yield timeout 30 — the scan
reads after the first occurrence of the token, so
`"Retry-After: 7\nRetry-After: 30\n"` yields 7. -/
theorem C5_counterexample :
    (strFind "Retry-After: 30\n".toList "Retry-After: 7\nRetry-After: 30\n".toList).isSome
      = true
    ∧ extract_timeout "Retry-After: 7\nRetry-After: 30\n".toList = .ok 7
    ∧ (Except.ok 7 : Except ExtractErr Int) ≠ .ok 30 :=
  ⟨rfl, rfl, by simp⟩

/-- Claim C5 (amended): a header whose first occurrence of the token
`"Retry-After: "` is followed by `"30\n"` yields timeout 30; every
header not containing the token yields timeout 0; and a zero result
never arms a cooldown window in the poller (the rate-limit branch of
`refresh` leaves `m_timout_start` untouched and `m_timeout_length`
zero). -/
theorem C5_retry_after_amended :
    (∀ pre suf : List Char,
        strFind retryToken (pre ++ retryToken ++ ('3' :: '0' :: '\n' :: suf)) =
          some pre.length →
        extract_timeout (pre ++ retryToken ++ ('3' :: '0' :: '\n' :: suf)) = .ok 30)
    ∧ (∀ header : List Char, strFind retryToken header = none →
        extract_timeout header = .ok 0)
    ∧ (∀ (resp : JVal) (header : List Char) (fetch : String → Int × JVal) (now_ns : Nat)
        (st : PollerState), header ≠ [] → extract_timeout header = .ok 0 →
        refresh_handle 429 resp header fetch now_ns st =
          .ok { st with timeout_length := 0 }) := by
  refine ⟨?_, ?_, ?_⟩
  · intro pre suf h
    have hd : (pre ++ retryToken ++ ('3' :: '0' :: '\n' :: suf)).drop
        (pre.length + retryToken.length) = '3' :: '0' :: '\n' :: suf := by
      rw [← List.length_append, List.drop_left]
    simp only [extract_timeout, h]
    rw [hd]
    rfl
  · intro header h
    unfold extract_timeout
    rw [h]
  · intro resp header fetch now_ns st hne h
    have he : header.isEmpty = false := by
      cases header with
      | nil => exact absurd rfl hne
      | cons a as => rfl
    simp [refresh_handle, he, h]

/-- Witness for C5: the amended theorem applied to the concrete headers
`"Retry-After: 30\n"` and `"Content-Type: text\n"`, and to a rate-limit
cycle whose header carries no token. -/
theorem C5_retry_after_amended_witness :
    extract_timeout "Retry-After: 30\n".toList = .ok 30
    ∧ extract_timeout "Content-Type: text\n".toList = .ok 0
    ∧ refresh_handle 429 JVal.null "X: 1\n".toList (fun _ => (404, JVal.null)) 77
        ⟨{}, none, 5, 9⟩ = .ok ⟨{}, none, 5, 0⟩ :=
  ⟨C5_retry_after_amended.1 [] [] (by decide),
   C5_retry_after_amended.2.1 "Content-Type: text\n".toList (by decide),
   C5_retry_after_amended.2.2 JVal.null "X: 1\n".toList (fun _ => (404, JVal.null)) 77
     ⟨{}, none, 5, 9⟩ (by decide) rfl⟩

/-- Claim C9: when the token `"Retry-After: "` occurs in the header,
`extract_timeout` returns normally exactly when a `'\n'` occurs after
the token and `std::stoi` accepts the interposed text (which must reach
a digit after optional whitespace and sign); a header containing the
token but no subsequent newline fails with the out-of-range access from
`header.at`, and one whose interposed text holds no digits fails with
the conversion error from `std::stoi` — in both cases an error escapes
instead of 0 being returned. -/
theorem C9_extract_timeout_bounds :
    (∀ (header : List Char) (p : Nat) (v : Int), strFind retryToken header = some p →
        extract_timeout header = .ok v →
        ∃ seg, takeUntilNl (header.drop (p + retryToken.length)) = some seg ∧
          stoiModel seg = some v)
    ∧ (∀ (header : List Char) (p : Nat), strFind retryToken header = some p →
        takeUntilNl (header.drop (p + retryToken.length)) = none →
        extract_timeout header = .error .outOfRange)
    ∧ (∀ (header : List Char) (p : Nat) (seg : List Char),
        strFind retryToken header = some p →
        takeUntilNl (header.drop (p + retryToken.length)) = some seg →
        stoiModel seg = none →
        extract_timeout header = .error .conversionErr) := by
  refine ⟨?_, ?_, ?_⟩
  · intro header p v hf hok
    simp only [extract_timeout, hf] at hok
    cases htn : takeUntilNl (header.drop (p + retryToken.length)) with
    | none =>
      simp only [htn] at hok
      exact Except.noConfusion hok
    | some seg =>
      simp only [htn] at hok
      cases hst : stoiModel seg with
      | none =>
        simp only [hst] at hok
        exact Except.noConfusion hok
      | some w =>
        simp only [hst] at hok
        injection hok with hwv
        exact ⟨seg, rfl, by rw [hst, hwv]⟩
  · intro header p hf htn
    simp only [extract_timeout, hf, htn]
  · intro header p seg hf htn hst
    simp only [extract_timeout, hf, htn, hst]

/-- Witness for C9: the theorem applied to three concrete headers —
one well formed, one lacking a newline after the token, one with
non-numeric text after the token. -/
theorem C9_extract_timeout_bounds_witness :
    (∃ seg, takeUntilNl ("Retry-After: 30\nrest".toList.drop (0 + retryToken.length)) =
        some seg ∧ stoiModel seg = some 30)
    ∧ extract_timeout "Retry-After: 30".toList = .error .outOfRange
    ∧ extract_timeout "Retry-After: soon\n".toList = .error .conversionErr :=
  ⟨C9_extract_timeout_bounds.1 "Retry-After: 30\nrest".toList 0 30 (by decide) rfl,
   C9_extract_timeout_bounds.2.1 "Retry-After: 30".toList 0 (by decide) (by decide),
   C9_extract_timeout_bounds.2.2 "Retry-After: soon\n".toList 0 "soon".toList
     (by decide) (by decide) (by decide)⟩

/-- Backoff induction: a run of transport-failing calls, each made
after the previous cooldown elapsed, increments the multiplier once
per failure and leaves the last scheduled cooldown at
`5 * (initial multiplier + failures - 1)`. -/
theorem failTimes_general (ts : List Int) : ∀ st : BackoffState, elapsedAll st ts →
    (failTimes st ts).multiplier = st.multiplier + ts.length ∧
    (ts ≠ [] → (failTimes st ts).timeout = 5 * (st.multiplier + ts.length - 1)) := by
  induction ts with
  | nil => intro st _; simp [failTimes]
  | cons t ts ih =>
    intro st h
    obtain ⟨h1, h2⟩ := h
    have hstep : (exec_step st t .transportFail).1 =
        { st with timeout_start := t, timeout := 5 * st.multiplier,
                  multiplier := st.multiplier + 1 } := by
      simp [exec_step, if_neg h1]
    have hft : failTimes st (t :: ts) = failTimes ((exec_step st t .transportFail).1) ts :=
      rfl
    obtain ⟨ihm, iht⟩ := ih ((exec_step st t .transportFail).1) h2
    rw [hstep] at ihm iht
    constructor
    · rw [hft, hstep, ihm]
      simp only [List.length_cons]
      push_cast
      ring
    · intro _
      rw [hft]
      cases ts with
      | nil =>
        show ((exec_step st t .transportFail).1).timeout = _
        rw [hstep]
        simp only [List.length_cons, List.length_nil]
        push_cast
        ring
      | cons t2 ts2 =>
        rw [hstep, iht (by simp)]
        simp only [List.length_cons]
        push_cast
        ring

/-- Claim C4: starting from the initial backoff statics, after `N ≥ 1`
consecutive transport-level failures of `execute_command` (each made
after the previous cooldown elapsed) the scheduled cooldown before the
next attempt is `5 * N` seconds and the multiplier is `N + 1`; and a
response that parses successfully resets the multiplier to 1, so the
next transport failure schedules 5 seconds again. -/
theorem C4_transport_backoff :
    (∀ ts : List Int, ts ≠ [] → elapsedAll initBackoff ts →
        (failTimes initBackoff ts).timeout = 5 * (ts.length : Int) ∧
        (failTimes initBackoff ts).multiplier = (ts.length : Int) + 1)
    ∧ (∀ (st : BackoffState) (now now' : Int),
        ¬(st.timeout > 0 ∧ now - st.timeout_start < st.timeout) →
        (exec_step st now .parsedOk).1.multiplier = 1 ∧
        (exec_step (exec_step st now .parsedOk).1 now' .transportFail).1.timeout = 5) := by
  constructor
  · intro ts hne h
    obtain ⟨hm, ht⟩ := failTimes_general ts initBackoff h
    refine ⟨?_, ?_⟩
    · rw [ht hne]
      show (5 : Int) * (1 + (ts.length : Int) - 1) = _
      ring
    · rw [hm]
      show (1 : Int) + (ts.length : Int) = _
      ring
  · intro st now now' h1
    have hok : (exec_step st now .parsedOk).1 =
        { st with multiplier := 1, timeout_start := 0, timeout := 0 } := by
      simp [exec_step, if_neg h1]
    rw [hok]
    constructor
    · rfl
    · simp [exec_step]

/-- Witness for C4: one failure at epoch 100 from the initial statics
schedules a 5-second cooldown and multiplier 2; a parsed response from
the statics `⟨3, 7, 4⟩` at epoch 100 resets the multiplier to 1 and
the next failure schedules 5 seconds. -/
theorem C4_transport_backoff_witness :
    ((failTimes initBackoff [100]).timeout = 5 * ((1 : Nat) : Int) ∧
      (failTimes initBackoff [100]).multiplier = ((1 : Nat) : Int) + 1)
    ∧ ((exec_step ⟨3, 7, 4⟩ 100 .parsedOk).1.multiplier = 1 ∧
        (exec_step (exec_step ⟨3, 7, 4⟩ 100 .parsedOk).1 200 .transportFail).1.timeout = 5) :=
  ⟨C4_transport_backoff.1 [100] (by simp) (by simp [elapsedAll, initBackoff]),
   C4_transport_backoff.2 ⟨3, 7, 4⟩ 100 200 (by norm_num)⟩

/-- Claim C6: a 200 payload whose `currently_playing_type` is the
string `"ad"` makes the cycle set the status to paused and return at
once — every other record field (progress included), `m_last_state`
and the cooldown fields are untouched, and the result does not depend
on `is_playing`, on the rest of the payload, or on the playlist oracle
(no further parsing). -/
theorem C6_ad_forces_paused (resp : JVal) (header : List Char)
    (fetch : String → Int × JVal) (now_ns : Nat) (st : PollerState)
    (hobj : resp.isObject = true)
    (had : resp.get "currently_playing_type" = JVal.str "ad") :
    refresh_handle 200 resp header fetch now_ns st =
      .ok { st with current := { st.current with status := some PlayState.paused } } := by
  simp [refresh_handle, hobj, had, JVal.isString, JVal.asStr]

/-- Witness for C6: an `"ad"` payload with `is_playing = true` still
yields status paused, with the previous progress kept. -/
theorem C6_ad_forces_paused_witness :
    refresh_handle 200
        (JVal.obj [("currently_playing_type", JVal.str "ad"), ("is_playing", JVal.bool true)])
        [] (fun _ => (404, JVal.null)) 0
        ⟨{ title := some "t", progress := some 1000, status := some PlayState.playing },
          none, 0, 0⟩ =
      .ok ⟨{ title := some "t", progress := some 1000, status := some PlayState.paused },
            none, 0, 0⟩ :=
  C6_ad_forces_paused _ _ _ _ _ rfl rfl

/-- Claim C2 counterexample: a 200 response with a private device does
not leave every field of the previous record unchanged — the source
sets `meta::PROGRESS` outside the privacy check (line 184), so the
progress field is overwritten (here 1000 becomes 5000). -/
theorem C2_private_counterexample :
    refresh_handle 200
        (JVal.obj [("device", JVal.obj [("is_private", JVal.bool true)]),
                   ("is_playing", JVal.bool true), ("progress_ms", JVal.num 5000)])
        [] (fun _ => (404, JVal.null)) 0
        ⟨{ title := some "t", progress := some 1000, status := some PlayState.playing },
          none, 0, 0⟩ =
      .ok ⟨{ title := some "t", progress := some 5000, status := some PlayState.playing },
            some PlayState.playing, 0, 0⟩
    ∧ ({ title := some "t", progress := some 5000, status := some PlayState.playing} :
          PlaybackRecord) ≠
        { title := some "t", progress := some 1000, status := some PlayState.playing } :=
  ⟨rfl, by decide⟩

/-- Claim C2 (amended): for a 200 response with a well-formed private
device object (and not an ad payload), every field of the previous
record except progress is unchanged; progress is overwritten with the
payload's `progress_ms`, and `m_last_state` is refreshed from the
unchanged status. -/
theorem C2_private_updates_only_progress (resp : JVal) (header : List Char)
    (fetch : String → Int × JVal) (now_ns : Nat) (st : PollerState)
    (hobj : resp.isObject = true)
    (hnotad : ((resp.get "currently_playing_type").isString &&
        ((resp.get "currently_playing_type").asStr == "ad")) = false)
    (hdev : (resp.get "device").isObject = true)
    (hplay : (resp.get "is_playing").isBool = true)
    (hpriv : ((resp.get "device").get "is_private").asBool = true) :
    refresh_handle 200 resp header fetch now_ns st =
      .ok { st with
              current := { st.current with progress := some (resp.get "progress_ms").asInt },
              last_state := st.current.status } := by
  simp [refresh_handle, hobj, hnotad, hdev, hplay, hpriv]

/-- Witness for C2: the amended theorem applied to a concrete private
payload. -/
theorem C2_private_updates_only_progress_witness :
    refresh_handle 200
        (JVal.obj [("device", JVal.obj [("is_private", JVal.bool true)]),
                   ("is_playing", JVal.bool true), ("progress_ms", JVal.num 5000)])
        [] (fun _ => (404, JVal.null)) 0
        ⟨{ title := some "t", progress := some 1000, status := some PlayState.playing },
          none, 0, 0⟩ =
      .ok ⟨{ title := some "t", progress := some 5000, status := some PlayState.playing },
            some PlayState.playing, 0, 0⟩ :=
  C2_private_updates_only_progress _ _ _ _ _ rfl rfl rfl rfl rfl

/-- Claim C8: a 204 response clears the playback record entirely (the
cleared record is the `no_session` condition of the spec's state
machine), and among non-200 statuses only 204 touches the record —
every other status leaves it unchanged. -/
theorem C8_204_clears_record :
    (∀ (resp : JVal) (header : List Char) (fetch : String → Int × JVal) (now_ns : Nat)
        (st : PollerState),
        refresh_handle 204 resp header fetch now_ns st = .ok { st with current := {} })
    ∧ (∀ (code : Int) (resp : JVal) (header : List Char) (fetch : String → Int × JVal)
        (now_ns : Nat) (st : PollerState) (s' : PollerState), code ≠ 200 → code ≠ 204 →
        refresh_handle code resp header fetch now_ns st = .ok s' →
        s'.current = st.current) := by
  constructor
  · intro resp header fetch now_ns st
    simp [refresh_handle]
  · intro code resp header fetch now_ns st s' h200 h204 hrun
    simp only [refresh_handle, if_neg h200, if_neg h204] at hrun
    split at hrun
    · split at hrun
      · exact Except.noConfusion hrun
      · split at hrun
        · injection hrun with h; rw [← h]
        · injection hrun with h; rw [← h]
    · injection hrun with h; rw [← h]

/-- Witness for C8: a 204 cycle clears a non-empty record; a 500 cycle
leaves it unchanged. -/
theorem C8_204_clears_record_witness :
    refresh_handle 204 JVal.null [] (fun _ => (404, JVal.null)) 0
        ⟨{ title := some "x" }, none, 0, 0⟩ = .ok ⟨{}, none, 0, 0⟩
    ∧ (⟨{ title := some "x" }, none, 0, 0⟩ : PollerState).current =
        (⟨{ title := some "x" }, none, 0, 0⟩ : PollerState).current :=
  ⟨C8_204_clears_record.1 JVal.null [] (fun _ => (404, JVal.null)) 0
      ⟨{ title := some "x" }, none, 0, 0⟩,
   C8_204_clears_record.2 500 JVal.null [] (fun _ => (404, JVal.null)) 0
      ⟨{ title := some "x" }, none, 0, 0⟩ ⟨{ title := some "x" }, none, 0, 0⟩
      (by decide) (by decide) rfl⟩

/-- Claim C1 (code bug evidence): with an empty stored refresh token
and non-empty credentials, `do_refresh_token` still sends the
token-endpoint request (the `berr("Refresh token is empty!")` branch
does not return), and if the endpoint answers with an access token it
even mutates the token state and reports success — contradicting the
spec's `MissingRefreshToken` contract (logged, no request sent, no
mutation, failure reported). -/
theorem C1_empty_refresh_token_requests_and_mutates :
    do_refresh_token ⟨"oldtok", "", 50, true⟩ "creds" 100
        (some (JVal.obj [("access_token", JVal.str "newtok"),
                         ("expires_in", JVal.num 3600)])) =
      ⟨⟨"newtok", "", 3700, true⟩, true, true⟩ := rfl

/-- Claim C3 counterexample: a failing token-endpoint response (no
access token, no expiry) that carries a non-empty `refresh_token`
string makes `do_refresh_token` adopt the new refresh token while the
access-token update fails — exactly the partial update the claim rules
out. -/
theorem C3_partial_update_counterexample :
    do_refresh_token ⟨"oldtok", "oldref", 50, true⟩ "creds" 100
        (some (JVal.obj [("refresh_token", JVal.str "newref")])) =
      ⟨⟨"oldtok", "newref", 50, false⟩, false, true⟩
    ∧ ("newref" : String) ≠ "oldref" :=
  ⟨rfl, by decide⟩

/-- Claim C3 (amended): for every response in which the access-token or
expiry field is missing, the refresh reports failure and leaves the
stored access token and expiry unchanged — but the stored refresh
token is replaced whenever the response carries a non-empty
`refresh_token` string, a deliberate partial update (source lines
455-462). -/
theorem C3_failure_keeps_access_adopts_refresh (st : TokenState) (creds : String)
    (now : Int) (doc obj : JVal)
    (hc : creds.isEmpty = false)
    (hobj : obj = if doc.isObject then doc else JVal.obj [])
    (hfail : ((obj.get "access_token").isString && (obj.get "expires_in").isDouble)
      = false) :
    (do_refresh_token st creds now (some doc)).result = false ∧
    (do_refresh_token st creds now (some doc)).state.token = st.token ∧
    (do_refresh_token st creds now (some doc)).state.token_termination =
      st.token_termination ∧
    (do_refresh_token st creds now (some doc)).state.refresh_token =
      (if ((obj.get "refresh_token").isString && !((obj.get "refresh_token").asStr == ""))
        then (obj.get "refresh_token").asStr else st.refresh_token) := by
  subst hobj
  simp only [do_refresh_token, hc, hfail, Bool.false_eq_true, if_false]
  refine ⟨trivial, ?_, ?_, ?_⟩ <;>
    split <;> first
      | rfl
      | (split <;> rfl)

/-- Witness for C3: the amended theorem applied to the failing
response `{"refresh_token": "newref"}`. -/
theorem C3_failure_keeps_access_adopts_refresh_witness :
    (do_refresh_token ⟨"oldtok", "oldref", 50, true⟩ "creds" 100
        (some (JVal.obj [("refresh_token", JVal.str "newref")]))).result = false ∧
    (do_refresh_token ⟨"oldtok", "oldref", 50, true⟩ "creds" 100
        (some (JVal.obj [("refresh_token", JVal.str "newref")]))).state.token = "oldtok" ∧
    (do_refresh_token ⟨"oldtok", "oldref", 50, true⟩ "creds" 100
        (some (JVal.obj [("refresh_token", JVal.str "newref")]))).state.token_termination
      = 50 ∧
    (do_refresh_token ⟨"oldtok", "oldref", 50, true⟩ "creds" 100
        (some (JVal.obj [("refresh_token", JVal.str "newref")]))).state.refresh_token
      = "newref" :=
  C3_failure_keeps_access_adopts_refresh ⟨"oldtok", "oldref", 50, true⟩ "creds" 100
    (JVal.obj [("refresh_token", JVal.str "newref")])
    (JVal.obj [("refresh_token", JVal.str "newref")]) rfl rfl rfl

/-- Claim C10: invoking `CAP_STOP_SONG` always dispatches the pause
endpoint request — the `case CAP_STOP_SONG:` label sits inside the
`if (playing)` branch of `CAP_PLAY_PAUSE`, so the stop path is taken
for every last-known playback status and is identical to the
pause-while-playing path at the API level. -/
theorem C10_stop_dispatches_pause :
    (∀ playing : Int,
        execute_capability_request Capability.stop_song playing = some pauseRequest)
    ∧ (∀ playing : Int, playing ≠ 0 →
        execute_capability_request Capability.play_pause playing =
          execute_capability_request Capability.stop_song playing) := by
  constructor
  · intro p
    rfl
  · intro p hp
    simp [execute_capability_request, hp]

/-- Witness for C10: stop with status 7 (and with 0) pauses, and
play/pause with a playing status issues the same request as stop. -/
theorem C10_stop_dispatches_pause_witness :
    execute_capability_request Capability.stop_song 7 = some pauseRequest
    ∧ execute_capability_request Capability.play_pause 1 =
        execute_capability_request Capability.stop_song 1 :=
  ⟨C10_stop_dispatches_pause.1 7, C10_stop_dispatches_pause.2 1 (by decide)⟩
